import Mathlib

/-!
Shallow embedding of the motion-analysis core of the repository
(`src/motion_analyzer/src/object_tracker.py`,
`src/motion_analyzer/src/instruction_analyzer.py`,
`src/src/video_analyzer.py`).

Modelling conventions used throughout:
* Python `float` values are modelled as exact rationals (`ℚ`); all the
  comparisons the claims depend on are between quantities that are exactly
  representable, so no rounding behaviour is lost.
* Euclidean distances (`np.sqrt(dx**2 + dy**2)`) are compared against other
  distances and against thresholds only.  We therefore carry the *squared*
  distance and encode `sqrt d < c` as `0 ≤ c ∧ d < c ^ 2`, which is
  equivalent for every real `c` since `sqrt` is strictly monotone on the
  non-negative reals and non-negative itself.
* Python `dict`s (which iterate in insertion order) are modelled as
  association lists: lookup finds the first binding, insertion overwrites in
  place or appends at the end, deletion filters the key out.
* Fallible code (`ZeroDivisionError`) is modelled with `Except`.
-/

namespace MotionAnalysis

/-- Association-list model of a Python `dict` keyed by `Nat`
(iteration order = insertion order, as in CPython ≥ 3.7). -/
abbrev Dict (α : Type) := List (Nat × α)

/-- `d[k]` lookup: first binding of `k`. -/
def Dict.lookup {α : Type} (d : Dict α) (k : Nat) : Option α :=
  match d with
  | [] => none
  | (k', v) :: rest => if k' = k then some v else Dict.lookup rest k

/-- `d[k] = v`: overwrite in place if present, else append at the end
(Python dicts keep the original position of an overwritten key). -/
def Dict.insert {α : Type} (d : Dict α) (k : Nat) (v : α) : Dict α :=
  match d with
  | [] => [(k, v)]
  | (k', v') :: rest =>
      if k' = k then (k', v) :: rest else (k', v') :: Dict.insert rest k v

/-- `del d[k]` (also models the no-op when `k` is absent). -/
def Dict.erase {α : Type} (d : Dict α) (k : Nat) : Dict α :=
  d.filter (fun p => p.1 ≠ k)

/-- Membership of a key. -/
def Dict.hasKey {α : Type} (d : Dict α) (k : Nat) : Bool :=
  (Dict.lookup d k).isSome

/-! ## Motion events and activity periods
(`instruction_analyzer.py`, class `VideoRecordingAnalyzer`) -/

/-- Severity tag of a motion event (`'high_motion'` / `'moderate_motion'`). -/
inductive Severity : Type
  | moderate
  | high
  deriving DecidableEq, Repr

/-- One motion event as produced by `detect_motion_events` (the `time_str`
key, a pretty-printed copy of `timestamp`, is omitted). -/
structure MotionEvent : Type where
  frame : Nat
  timestamp : ℚ
  motion_score : ℚ
  severity : Severity
  deriving DecidableEq, Repr

/-- A (possibly still accumulating) activity period, mirroring the dict
built in `identify_activity_periods`.  `duration` is the *stored* field:
it is set to `0` at creation and recomputed only when a period is closed
inside the loop. -/
structure Period : Type where
  start_time : ℚ
  end_time : ℚ
  duration : ℚ
  events : List MotionEvent
  deriving DecidableEq, Repr

/-- The fresh period started from a single event. -/
def newPeriod (e : MotionEvent) : Period :=
  { start_time := e.timestamp, end_time := e.timestamp, duration := 0,
    events := [e] }

/-- Extending the current period with one more event
(the `elif event['timestamp'] - current_period['end_time'] < 5` branch). -/
def extendPeriod (cur : Period) (e : MotionEvent) : Period :=
  { cur with end_time := e.timestamp, events := cur.events ++ [e] }

/-- The single pass of `identify_activity_periods`, with the loop state made
explicit: `cur` is `current_period` (`none` before the first event), `acc`
the list of already-emitted periods. -/
def segLoop : List MotionEvent → Option Period → List Period → List Period
  | [], none, acc => acc
  | [], some cur, acc =>
      -- `# Add last period`: the stored `duration` field is tested as-is.
      if cur.duration > 2 then acc ++ [cur] else acc
  | e :: es, none, acc => segLoop es (some (newPeriod e)) acc
  | e :: es, some cur, acc =>
      if e.timestamp - cur.end_time < 5 then
        segLoop es (some (extendPeriod cur e)) acc
      else
        let closed := { cur with duration := cur.end_time - cur.start_time }
        segLoop es (some (newPeriod e))
          (if closed.duration > 2 then acc ++ [closed] else acc)

/-- `VideoRecordingAnalyzer.identify_activity_periods`. -/
def identifyActivityPeriods (events : List MotionEvent) : List Period :=
  match events with
  | [] => []   -- `if not self.motion_events: return []`
  | _ => segLoop events none []

/-! ## Coverage/delta comparator
(`instruction_analyzer.py`, class `InstructionVideoComparator`) -/

/-- An instruction step (only the fields the comparator reads). -/
structure InstructionStep : Type where
  step_number : Nat
  title : String
  deriving DecidableEq, Repr

/-- The dict returned by `analyze_coverage`. -/
structure Coverage : Type where
  total_instruction_steps : Nat
  total_activity_periods : Nat
  estimated_coverage : ℚ
  missing_steps : ℤ
  deriving DecidableEq, Repr

/-- `InstructionVideoComparator.analyze_coverage`. -/
def analyzeCoverage (assembly_steps : List InstructionStep)
    (activity_periods : List Period) : Coverage :=
  { total_instruction_steps := assembly_steps.length
    total_activity_periods := activity_periods.length
    estimated_coverage :=
      if assembly_steps ≠ [] then
        min ((activity_periods.length : ℚ) / (assembly_steps.length : ℚ)) 1
      else 0
    missing_steps :=
      max 0 ((assembly_steps.length : ℤ) - (activity_periods.length : ℤ)) }

/-! ## Duration-from-frame-count computations -/

/-- `VideoRecordingAnalyzer.__init__`:
`self.duration = self.frame_count / self.fps if self.fps > 0 else 0`. -/
def recordingDuration (frame_count : ℕ) (fps : ℚ) : ℚ :=
  if fps > 0 then (frame_count : ℚ) / fps else 0

/-- The info dict built by `VideoProcessor.get_video_info`
(`src/src/video_analyzer.py`). -/
structure VideoInfo : Type where
  width : ℤ
  height : ℤ
  fps : ℚ
  frame_count : ℤ
  duration : ℚ
  deriving DecidableEq, Repr

/-- `VideoProcessor.get_video_info`: the `duration` entry divides by `fps`
with no guard; Python raises `ZeroDivisionError` when `fps == 0.0`. -/
def getVideoInfo (width height : ℤ) (fps : ℚ) (frame_count : ℤ) :
    Except String VideoInfo :=
  if fps = 0 then Except.error "ZeroDivisionError: float division by zero"
  else Except.ok
    { width := width, height := height, fps := fps,
      frame_count := frame_count, duration := (frame_count : ℚ) / fps }

/-! ## Object tracker (`object_tracker.py`)

### Rational linear algebra for the per-entity Kalman filters

`cv2.KalmanFilter` stores its matrices as float32 arrays; we model them as
matrices of exact rationals (`List (List ℚ)`).  All the inputs fed to the
filters in this development are small integers, for which the float32
computations coincide with the exact rational ones on every value the
claims inspect. -/

/-- Dot product of two rows. -/
def dotQ (r c : List ℚ) : ℚ := (List.zipWith (· * ·) r c).sum

/-- A matrix as a list of rows. -/
abbrev MatQ := List (List ℚ)

/-- Matrix multiplication. -/
def matMul (A B : MatQ) : MatQ :=
  A.map (fun row => B.transpose.map (fun col => dotQ row col))

/-- Matrix–vector multiplication. -/
def matVec (A : MatQ) (v : List ℚ) : List ℚ := A.map (fun row => dotQ row v)

/-- Entrywise sum. -/
def matAdd (A B : MatQ) : MatQ := List.zipWith (List.zipWith (· + ·)) A B

/-- Entrywise difference. -/
def matSub (A B : MatQ) : MatQ := List.zipWith (List.zipWith (· - ·)) A B

/-- Scalar multiple. -/
def matScale (c : ℚ) (A : MatQ) : MatQ := A.map (List.map (c * ·))

/-- Vector sum / difference. -/
def vecAdd (u v : List ℚ) : List ℚ := List.zipWith (· + ·) u v

/-- Vector difference. -/
def vecSub (u v : List ℚ) : List ℚ := List.zipWith (· - ·) u v

/-- Identity matrix. -/
def eyeQ (n : Nat) : MatQ :=
  (List.range n).map (fun i => (List.range n).map (fun j => if i = j then 1 else 0))

/-- Zero matrix. -/
def zerosQ (m n : Nat) : MatQ := List.replicate m (List.replicate n 0)

/-- Entry access (0 outside the stored shape). -/
def matEntry (A : MatQ) (i j : Nat) : ℚ := ((A.getD i []).getD j 0)

/-- Inverse of a 2×2 matrix.  `cv2`'s `correct` solves the innovation system
with `DECOMP_SVD`; the innovation covariance `H P' Hᵀ + R` has `R = I` added,
so it is positive definite and the SVD solve equals the exact inverse. -/
def inv2 (A : MatQ) : MatQ :=
  let a := matEntry A 0 0
  let b := matEntry A 0 1
  let c := matEntry A 1 0
  let d := matEntry A 1 1
  let det := a * d - b * c
  [[d / det, -b / det], [-c / det, a / det]]

/-- State of one `cv2.KalmanFilter(4, 2)`. -/
structure KalmanFilter : Type where
  transitionMatrix : MatQ
  measurementMatrix : MatQ
  processNoiseCov : MatQ
  measurementNoiseCov : MatQ
  errorCovPre : MatQ
  errorCovPost : MatQ
  gain : MatQ
  statePre : List ℚ
  statePost : List ℚ
  deriving DecidableEq, Repr

/-- `ObjectTracker._init_kalman_filter`: the fields the Python code assigns,
together with `cv2.KalmanFilter`'s constructor defaults for the rest
(`measurementNoiseCov = I`, `errorCovPre = errorCovPost = 0`, `gain = 0`). -/
def initKalmanFilter (center : ℤ × ℤ) : KalmanFilter :=
  { transitionMatrix := [[1, 0, 1, 0], [0, 1, 0, 1], [0, 0, 1, 0], [0, 0, 0, 1]]
    measurementMatrix := [[1, 0, 0, 0], [0, 1, 0, 0]]
    processNoiseCov := matScale (3 / 100) (eyeQ 4)
    measurementNoiseCov := eyeQ 2
    errorCovPre := zerosQ 4 4
    errorCovPost := zerosQ 4 4
    gain := zerosQ 4 2
    statePre := [(center.1 : ℚ), (center.2 : ℚ), 0, 0]
    statePost := [(center.1 : ℚ), (center.2 : ℚ), 0, 0] }

/-- `cv2.KalmanFilter.predict` (no control): advances the state estimate and
error covariance, and copies them into the posterior slots so that repeated
predictions between corrections keep advancing the state. -/
def kalmanPredict (kf : KalmanFilter) : List ℚ × KalmanFilter :=
  let statePre := matVec kf.transitionMatrix kf.statePost
  let errorCovPre :=
    matAdd (matMul (matMul kf.transitionMatrix kf.errorCovPost)
      kf.transitionMatrix.transpose) kf.processNoiseCov
  (statePre,
    { kf with statePre := statePre, errorCovPre := errorCovPre,
              statePost := statePre, errorCovPost := errorCovPre })

/-- `cv2.KalmanFilter.correct`. -/
def kalmanCorrect (kf : KalmanFilter) (z : List ℚ) : KalmanFilter :=
  let temp2 := matMul kf.measurementMatrix kf.errorCovPre
  let temp3 :=
    matAdd (matMul temp2 kf.measurementMatrix.transpose) kf.measurementNoiseCov
  let temp4 := matMul (inv2 temp3) temp2
  let gain := temp4.transpose
  let temp5 := vecSub z (matVec kf.measurementMatrix kf.statePre)
  let statePost := vecAdd kf.statePre (matVec gain temp5)
  let errorCovPost := matSub kf.errorCovPre (matMul gain temp2)
  { kf with gain := gain, statePost := statePost, errorCovPost := errorCovPost }

/-- Python's `int(...)` applied to a float: truncation toward zero. -/
def pyInt (q : ℚ) : ℤ := q.num.tdiv (q.den : ℤ)

/-! ### Data model of the tracker -/

/-- `ObjectType` enumeration. -/
inductive ObjectType : Type
  | DUT
  | LEFT_HAND
  | RIGHT_HAND
  | CONVEYOR
  | FIXTURE
  | UNKNOWN
  deriving DecidableEq, Repr

/-- The `TrackedObject` dataclass. -/
structure TrackedObject : Type where
  id : Nat
  object_type : ObjectType
  bbox : ℤ × ℤ × ℤ × ℤ
  center : ℤ × ℤ
  area : ℚ
  color_histogram : List ℚ
  motion_history : List (ℤ × ℤ)   -- `deque(maxlen=30)`
  confidence : ℚ
  first_seen_frame : Nat
  last_seen_frame : Nat
  velocity : ℚ × ℚ
  deriving DecidableEq, Repr

/-- Appending to a `deque(maxlen=30)`: the oldest element is evicted once
the capacity is exceeded. -/
def pushHistory (h : List (ℤ × ℤ)) (c : ℤ × ℤ) : List (ℤ × ℤ) :=
  let h' := h ++ [c]
  h'.drop (h'.length - 30)

/-- `TrackedObject.update_position`. -/
def updatePosition (t : TrackedObject) (new_bbox : ℤ × ℤ × ℤ × ℤ)
    (frame_num : Nat) : TrackedObject :=
  let x := new_bbox.1
  let y := new_bbox.2.1
  let w := new_bbox.2.2.1
  let h := new_bbox.2.2.2
  let old_center := t.center
  let center : ℤ × ℤ := (x + w.fdiv 2, y + h.fdiv 2)   -- Python `//`
  let area : ℚ := ((w * h : ℤ) : ℚ)
  let velocity : ℚ × ℚ :=
    if t.last_seen_frame > 0 then
      let frames_diff : ℤ := (frame_num : ℤ) - (t.last_seen_frame : ℤ)
      if frames_diff > 0 then
        (((center.1 - old_center.1 : ℤ) : ℚ) / (frames_diff : ℚ),
         ((center.2 - old_center.2 : ℤ) : ℚ) / (frames_diff : ℚ))
      else t.velocity
    else t.velocity
  { t with bbox := new_bbox, center := center, area := area,
           velocity := velocity, last_seen_frame := frame_num,
           motion_history := pushHistory t.motion_history center }

/-- Config record of `ObjectTracker._load_config` (defaults as in the
source; field `conveyor_y_position_frac` models the source key
`conveyor_y_position_ratio`). -/
structure Config : Type where
  min_object_area : ℚ := 500
  max_object_area : ℚ := 50000
  hand_detection_threshold : ℚ := 3 / 5
  dut_persistence_frames : ℚ := 10
  max_distance_threshold : ℚ := 100
  conveyor_y_position_frac : ℚ := 7 / 10
  fixture_motion_threshold : ℚ := 5
  dut_color_consistency_threshold : ℚ := 7 / 10
  deriving DecidableEq, Repr

/-- The default configuration. -/
def defaultConfig : Config := {}

/-- One entry of the `objects` list built by `_detect_moving_objects`
(the `contour` key, used only inside detection, is omitted; `area` is the
contour area, which is independent of the bounding box). -/
structure MovingObj : Type where
  bbox : ℤ × ℤ × ℤ × ℤ
  area : ℚ
  center : ℤ × ℤ
  histogram : List ℚ
  deriving DecidableEq, Repr

/-- A moving object after `_classify_objects` added the `type` and
`confidence` keys (`otype` models the dict key `'type'`). -/
structure ClassifiedObj : Type where
  bbox : ℤ × ℤ × ℤ × ℤ
  area : ℚ
  center : ℤ × ℤ
  histogram : List ℚ
  otype : ObjectType
  confidence : ℚ
  deriving DecidableEq, Repr

/-- Mutable state of an `ObjectTracker` instance (the background
subtractor and the skin-colour constants live entirely inside the external
image-processing layer and are not part of the tracked state). -/
structure TrackerState : Type where
  tracked_objects : Dict TrackedObject
  next_object_id : Nat
  frame_count : Nat
  kalman_filters : Dict KalmanFilter
  deriving DecidableEq, Repr

/-- Fresh tracker state (`ObjectTracker.__init__`). -/
def initialState : TrackerState :=
  { tracked_objects := [], next_object_id := 0, frame_count := 0,
    kalman_filters := [] }

/-! ### Distance comparisons

The source compares `np.sqrt(dx**2 + dy**2)` against thresholds and against
the running minimum.  We carry squared distances; `sqrtLt d c` encodes
`Real.sqrt d < c`, which for `d ≥ 0` is equivalent to `0 ≤ c ∧ d < c ^ 2`.
Comparisons between two distances translate directly to their squares. -/

/-- Squared Euclidean distance between two integer points. -/
def sqDist (a b : ℤ × ℤ) : ℚ := (((a.1 - b.1) ^ 2 + (a.2 - b.2) ^ 2 : ℤ) : ℚ)

/-- `Real.sqrt d < c`, encoded on the squared distance `d ≥ 0`. -/
def sqrtLt (dSq c : ℚ) : Bool := decide (0 ≤ c) && decide (dSq < c ^ 2)

/-! ### Classification (`_classify_objects`, `_is_stationary_object`) -/

/-- `_calculate_overlap_with_regions` (the early return for an empty region
list coincides with folding from `0.0`). -/
def overlapWithRegions (bbox : ℤ × ℤ × ℤ × ℤ)
    (regions : List (ℤ × ℤ × ℤ × ℤ)) : ℚ :=
  regions.foldl (fun m r =>
    let x1 := bbox.1; let y1 := bbox.2.1
    let w1 := bbox.2.2.1; let h1 := bbox.2.2.2
    let x2 := r.1; let y2 := r.2.1
    let w2 := r.2.2.1; let h2 := r.2.2.2
    let x_left := max x1 x2
    let y_top := max y1 y2
    let x_right := min (x1 + w1) (x2 + w2)
    let y_bottom := min (y1 + h1) (y2 + h2)
    if x_right > x_left ∧ y_bottom > y_top then
      let intersection_area : ℤ := (x_right - x_left) * (y_bottom - y_top)
      let bbox_area : ℤ := w1 * h1
      let overlap : ℚ :=
        if bbox_area > 0 then (intersection_area : ℚ) / (bbox_area : ℚ) else 0
      max m overlap
    else m) 0

/-- The first loop of `_is_stationary_object`: the most recently usable
existing entity within the distance threshold of `center`. -/
def stationarityMatch (cfg : Config) (st : TrackerState) (center : ℤ × ℤ) :
    Option Nat :=
  (st.tracked_objects.foldl
    (fun (best : Option (Nat × ℚ)) p =>
      if (p.2.last_seen_frame : ℤ) ≥ (st.frame_count : ℤ) - 5 then
        let dSq := sqDist center p.2.center
        let better : Bool :=
          match best with
          | none => true
          | some q => decide (dSq < q.2)
        if better && sqrtLt dSq cfg.max_distance_threshold then
          some (p.1, dSq)
        else best
      else best) none).map Prod.fst

/-- Maximum squared step-to-step displacement over a trajectory (the source
takes the maximum of the square roots starting from `0`; squaring is
monotone so the comparisons agree). -/
def maxStepSq (positions : List (ℤ × ℤ)) : ℚ :=
  (List.zipWith sqDist positions positions.tail).foldl max 0

/-- `ObjectTracker._is_stationary_object`. -/
def isStationaryObject (cfg : Config) (st : TrackerState) (obj : MovingObj) :
    Bool :=
  match stationarityMatch cfg st obj.center with
  | some matched_id =>
      match Dict.lookup st.tracked_objects matched_id with
      | some tracked =>
          if tracked.motion_history.length > 5 then
            sqrtLt (maxStepSq tracked.motion_history) cfg.fixture_motion_threshold
          else false
      | none => false
  | none => false

/-- Classification of one moving object (`_classify_objects` loop body;
the initialisation `UNKNOWN, 0.5` is what every non-assigning branch
leaves in place). -/
def classifyObj (cfg : Config) (st : TrackerState)
    (hand_regions : List (ℤ × ℤ × ℤ × ℤ)) (height width : ℤ)
    (obj : MovingObj) : ClassifiedObj :=
  let center := obj.center
  let hand_overlap := overlapWithRegions obj.bbox hand_regions
  let tc : ObjectType × ℚ :=
    if hand_overlap > cfg.hand_detection_threshold then
      (if center.1 < width.fdiv 2 then ObjectType.LEFT_HAND
       else ObjectType.RIGHT_HAND, hand_overlap)
    else if (center.2 : ℚ) > (height : ℚ) * cfg.conveyor_y_position_frac then
      (if obj.area > 5000 then (ObjectType.CONVEYOR, 7 / 10)
       else (ObjectType.UNKNOWN, 1 / 2))
    else if obj.area > 10000 then
      (if isStationaryObject cfg st obj then (ObjectType.FIXTURE, 3 / 5)
       else (ObjectType.UNKNOWN, 1 / 2))
    else
      (if 1000 < obj.area ∧ obj.area < 10000 then (ObjectType.DUT, 7 / 10)
       else (ObjectType.UNKNOWN, 1 / 2))
  { bbox := obj.bbox, area := obj.area, center := center,
    histogram := obj.histogram, otype := tc.1, confidence := tc.2 }

/-- `ObjectTracker._classify_objects`. -/
def classifyObjects (cfg : Config) (st : TrackerState)
    (moving_objects : List MovingObj)
    (hand_regions : List (ℤ × ℤ × ℤ × ℤ)) (height width : ℤ) :
    List ClassifiedObj :=
  moving_objects.map (classifyObj cfg st hand_regions height width)

/-! ### Tracking update (`_update_tracking`) -/

/-- `ObjectTracker._predict_position`: predicting also mutates the stored
filter (`cv2` copies the prediction into the posterior state). -/
def predictPosition (filters : Dict KalmanFilter) (obj_id : Nat) :
    Option (ℤ × ℤ) × Dict KalmanFilter :=
  match Dict.lookup filters obj_id with
  | some kf =>
      let pr := kalmanPredict kf
      (some (pyInt (pr.1.getD 0 0), pyInt (pr.1.getD 1 0)),
        Dict.insert filters obj_id pr.2)
  | none => (none, filters)

/-- `ObjectTracker._update_kalman_filter`. -/
def updateKalman (filters : Dict KalmanFilter) (obj_id : Nat)
    (center : ℤ × ℤ) : Dict KalmanFilter :=
  match Dict.lookup filters obj_id with
  | some kf =>
      Dict.insert filters obj_id
        (kalmanCorrect kf [(center.1 : ℚ), (center.2 : ℚ)])
  | none => filters

/-- One candidate inspection inside the matching loop of
`_update_tracking`: skip role-incompatible entities; otherwise predict the
entity's position (mutating its filter), measure the squared distance from
the detected center (falling back to the last known center when no filter
exists), and keep the entity if it is strictly closer than the running
minimum and inside the distance threshold. -/
def findMatchStep (cfg : Config) (center : ℤ × ℤ) (otype : ObjectType)
    (acc : Option (Nat × ℚ) × Dict KalmanFilter) (p : Nat × TrackedObject) :
    Option (Nat × ℚ) × Dict KalmanFilter :=
  if p.2.object_type = otype ∨ p.2.object_type = ObjectType.UNKNOWN then
    let pp := predictPosition acc.2 p.1
    let dSq : ℚ :=
      match pp.1 with
      | some pred => sqDist center pred
      | none => sqDist center p.2.center
    let better : Bool :=
      match acc.1 with
      | none => true
      | some q => decide (dSq < q.2)
    (if better && sqrtLt dSq cfg.max_distance_threshold then
      some (p.1, dSq)
     else acc.1, pp.2)
  else acc

/-- The inner matching loop of `_update_tracking` for one detected object:
scan the registry in insertion order, keep the strictly closest compatible
entity within the distance threshold (first candidate wins ties), threading
the filter map through the (mutating) predictions. -/
def findMatch (cfg : Config) (tracked : Dict TrackedObject)
    (filters : Dict KalmanFilter) (center : ℤ × ℤ) (otype : ObjectType) :
    Option Nat × Dict KalmanFilter :=
  let r := tracked.foldl (findMatchStep cfg center otype) (none, filters)
  (r.1.map Prod.fst, r.2)

/-- Loop state of `_update_tracking`: the tracker state, the
`matched_objects` set, and two ghost logs that record, per processed
object, the `matched_id` it selected (`none` = new entity created) and the
ids assigned to newly created entities. -/
structure TrackLoopState : Type where
  st : TrackerState
  matched_objects : List Nat
  matchTrace : List (Option Nat)
  createdIds : List Nat

/-- Body of the per-object loop of `_update_tracking`. -/
def trackStep (cfg : Config) (s : TrackLoopState) (obj : ClassifiedObj) :
    TrackLoopState :=
  let fm := findMatch cfg s.st.tracked_objects s.st.kalman_filters
    obj.center obj.otype
  match fm.1 with
  | some matched_id =>
      let st' :=
        match Dict.lookup s.st.tracked_objects matched_id with
        | some tracked =>
            let t1 := updatePosition tracked obj.bbox s.st.frame_count
            let t2 :=
              { t1 with color_histogram := obj.histogram,
                        confidence := obj.confidence,
                        object_type :=
                          if t1.object_type = ObjectType.UNKNOWN then obj.otype
                          else t1.object_type }
            { s.st with
                tracked_objects := Dict.insert s.st.tracked_objects matched_id t2,
                kalman_filters := updateKalman fm.2 matched_id obj.center }
        | none =>   -- unreachable: `matched_id` is drawn from the registry keys
            { s.st with kalman_filters := updateKalman fm.2 matched_id obj.center }
      { st := st', matched_objects := s.matched_objects ++ [matched_id],
        matchTrace := s.matchTrace ++ [some matched_id],
        createdIds := s.createdIds }
  | none =>
      let new_obj : TrackedObject :=
        { id := s.st.next_object_id, object_type := obj.otype,
          bbox := obj.bbox, center := obj.center, area := obj.area,
          color_histogram := obj.histogram, motion_history := [],
          confidence := obj.confidence,
          first_seen_frame := s.st.frame_count,
          last_seen_frame := s.st.frame_count, velocity := (0, 0) }
      let st' :=
        { s.st with
            tracked_objects :=
              Dict.insert s.st.tracked_objects s.st.next_object_id new_obj,
            kalman_filters :=
              Dict.insert fm.2 s.st.next_object_id (initKalmanFilter obj.center),
            next_object_id := s.st.next_object_id + 1 }
      { st := st', matched_objects := s.matched_objects,
        matchTrace := s.matchTrace ++ [none],
        createdIds := s.createdIds ++ [s.st.next_object_id] }

/-- Eviction of one entity id: `del self.tracked_objects[obj_id]` together
with `if obj_id in self.kalman_filters: del self.kalman_filters[obj_id]`. -/
def evict (st' : TrackerState) (i : Nat) : TrackerState :=
  { st' with
      tracked_objects := Dict.erase st'.tracked_objects i,
      kalman_filters :=
        if Dict.hasKey st'.kalman_filters i then
          Dict.erase st'.kalman_filters i
        else st'.kalman_filters }

/-- The removal phase of `_update_tracking`: evict entities that were not
matched this frame and have been unseen longer than the persistence window,
deleting their Kalman filters with them. -/
def removeStale (cfg : Config) (st : TrackerState)
    (matched_objects : List Nat) : TrackerState :=
  let objects_to_remove := st.tracked_objects.filterMap
    (fun p =>
      if p.1 ∉ matched_objects ∧
          ((st.frame_count : ℤ) - (p.2.last_seen_frame : ℤ) : ℚ) >
            cfg.dut_persistence_frames then
        some p.1
      else none)
  objects_to_remove.foldl evict st

/-- `ObjectTracker._update_tracking`, instrumented with the ghost match
trace and created-id log. -/
def updateTrackingLog (cfg : Config) (classified : List ClassifiedObj)
    (st : TrackerState) : TrackerState × List (Option Nat) × List Nat :=
  let out := classified.foldl (trackStep cfg)
    { st := st, matched_objects := [], matchTrace := [], createdIds := [] }
  (removeStale cfg out.st out.matched_objects, out.matchTrace, out.createdIds)

/-- `ObjectTracker._update_tracking` (state part only). -/
def updateTracking (cfg : Config) (classified : List ClassifiedObj)
    (st : TrackerState) : TrackerState :=
  (updateTrackingLog cfg classified st).1

/-- Per-frame detector output handed to classification/tracking: the lists
produced by `_detect_moving_objects` and `_detect_hands` (external image
processing) plus the frame dimensions. -/
structure FrameDetections : Type where
  moving : List MovingObj
  hand_regions : List (ℤ × ℤ × ℤ × ℤ)
  height : ℤ
  width : ℤ
  deriving DecidableEq, Repr

/-- `ObjectTracker.process_frame` (instrumented): bump `frame_count`,
classify the detections against the current state, update tracking. -/
def processFrameLog (cfg : Config) (st : TrackerState)
    (fd : FrameDetections) : TrackerState × List (Option Nat) × List Nat :=
  let st1 := { st with frame_count := st.frame_count + 1 }
  updateTrackingLog cfg
    (classifyObjects cfg st1 fd.moving fd.hand_regions fd.height fd.width) st1

/-- `ObjectTracker.process_frame` (state part only). -/
def processFrame (cfg : Config) (st : TrackerState) (fd : FrameDetections) :
    TrackerState :=
  (processFrameLog cfg st fd).1

/-- Running the tracker over a stream of frames. -/
def runFrames (cfg : Config) (st : TrackerState)
    (fds : List FrameDetections) : TrackerState :=
  fds.foldl (processFrame cfg) st

/-- The ids assigned to newly created entities over a whole session, in
assignment order. -/
def sessionCreated (cfg : Config) : TrackerState → List FrameDetections → List Nat
  | _, [] => []
  | st, fd :: fds =>
      let out := processFrameLog cfg st fd
      out.2.2 ++ sessionCreated cfg out.1 fds

/-! ## Helper lemmas about the dict model -/

theorem Dict.lookup_insert_self {α : Type} (d : Dict α) (k : Nat) (v : α) :
    Dict.lookup (Dict.insert d k v) k = some v := by
  induction d with
  | nil => simp [Dict.insert, Dict.lookup]
  | cons p rest ih =>
      obtain ⟨a, b⟩ := p
      by_cases h : a = k
      · simp [Dict.insert, Dict.lookup, h]
      · simp [Dict.insert, Dict.lookup, h, ih]

theorem Dict.lookup_insert_of_ne {α : Type} (d : Dict α) (k k' : Nat) (v : α)
    (h : k' ≠ k) :
    Dict.lookup (Dict.insert d k v) k' = Dict.lookup d k' := by
  have hk : ¬ k = k' := fun e => h e.symm
  induction d with
  | nil => simp [Dict.insert, Dict.lookup, hk]
  | cons p rest ih =>
      obtain ⟨a, b⟩ := p
      by_cases ha : a = k
      · subst ha
        simp [Dict.insert, Dict.lookup, hk]
      · by_cases ha' : a = k'
        · simp [Dict.insert, Dict.lookup, ha, ha', hk, h]
        · simp [Dict.insert, Dict.lookup, ha, ha', ih]

theorem Dict.mem_insert {α : Type} {d : Dict α} {k : Nat} {v : α}
    {p : Nat × α} (h : p ∈ Dict.insert d k v) : p = (k, v) ∨ p ∈ d := by
  induction d with
  | nil => simpa [Dict.insert] using h
  | cons q rest ih =>
      obtain ⟨a, b⟩ := q
      by_cases ha : a = k
      · subst ha
        rcases (by simpa [Dict.insert] using h) with h' | h'
        · exact Or.inl (by simp [h'])
        · exact Or.inr (List.mem_cons_of_mem _ h')
      · rcases (by simpa [Dict.insert, ha] using h) with h' | h'
        · exact Or.inr (by simp [h'])
        · rcases ih h' with h'' | h''
          · exact Or.inl h''
          · exact Or.inr (List.mem_cons_of_mem _ h'')

theorem Dict.lookup_mem {α : Type} {d : Dict α} {k : Nat} {v : α}
    (h : Dict.lookup d k = some v) : (k, v) ∈ d := by
  induction d with
  | nil => simp [Dict.lookup] at h
  | cons p rest ih =>
      obtain ⟨a, b⟩ := p
      by_cases ha : a = k
      · subst ha
        simp [Dict.lookup] at h
        subst h
        exact List.mem_cons_self _ _
      · simp only [Dict.lookup, ha, if_false] at h
        exact List.mem_cons_of_mem _ (ih h)

theorem Dict.lookup_erase {α : Type} (d : Dict α) (k k' : Nat) :
    Dict.lookup (Dict.erase d k) k' =
      if k' = k then none else Dict.lookup d k' := by
  induction d with
  | nil => simp [Dict.erase, Dict.lookup]
  | cons p rest ih =>
      obtain ⟨a, b⟩ := p
      by_cases ha : a = k
      · have hstep : Dict.erase ((a, b) :: rest) k = Dict.erase rest k := by
          simp [Dict.erase, List.filter_cons, ha]
        rw [hstep, ih]
        by_cases hk' : k' = k
        · simp [hk']
        · have hak' : ¬ a = k' := fun e => hk' (e.symm.trans ha)
          simp [Dict.lookup, hk', hak']
      · have hstep : Dict.erase ((a, b) :: rest) k = (a, b) :: Dict.erase rest k := by
          simp [Dict.erase, List.filter_cons, ha]
        rw [hstep]
        by_cases ha' : a = k'
        · have hk' : ¬ k' = k := fun e => ha (ha'.trans e)
          simp [Dict.lookup, ha', hk']
        · simp [Dict.lookup, ha', ih]

theorem Dict.hasKey_insert {α : Type} (d : Dict α) (k k' : Nat) (v : α) :
    Dict.hasKey (Dict.insert d k v) k' =
      (decide (k' = k) || Dict.hasKey d k') := by
  by_cases h : k' = k
  · subst h
    simp [Dict.hasKey, Dict.lookup_insert_self]
  · simp [Dict.hasKey, Dict.lookup_insert_of_ne _ _ _ _ h, h]

theorem Dict.hasKey_erase {α : Type} (d : Dict α) (k k' : Nat) :
    Dict.hasKey (Dict.erase d k) k' =
      (decide (k' ≠ k) && Dict.hasKey d k') := by
  by_cases h : k' = k
  · subst h
    simp [Dict.hasKey, Dict.lookup_erase]
  · simp [Dict.hasKey, Dict.lookup_erase, h]

/-! ## Activity-segmenter invariants (claims C1/C5) -/

/-- The shape of every period emitted by the segmenter loop. -/
def EmittedGood (p : Period) : Prop :=
  p.start_time ≤ p.end_time ∧ p.duration = p.end_time - p.start_time ∧
    2 < p.duration

/-- Separation between consecutive emitted periods: the earlier one ends
strictly before the later one starts. -/
def PeriodSep (p q : Period) : Prop := p.end_time < q.start_time

/-- Main invariant of the segmenter loop. -/
theorem segLoop_invariant (events : List MotionEvent) :
    ∀ (cur : Period) (acc : List Period),
      events.Pairwise (fun a b => a.timestamp ≤ b.timestamp) →
      (∀ e ∈ events, cur.end_time ≤ e.timestamp) →
      cur.start_time ≤ cur.end_time →
      cur.duration = 0 →
      (∀ p ∈ acc, EmittedGood p) →
      List.Chain' PeriodSep acc →
      (∀ p ∈ acc, p.end_time < cur.start_time) →
      (∀ p ∈ segLoop events (some cur) acc, EmittedGood p) ∧
        List.Chain' PeriodSep (segLoop events (some cur) acc) := by
  induction events with
  | nil =>
      intro cur acc _ _ _ hdur hgood hchain _
      simp [segLoop, hdur]
      exact ⟨hgood, hchain⟩
  | cons e es ih =>
      intro cur acc hsorted hfuture hse hdur hgood hchain hbefore
      have hsorted' := (List.pairwise_cons.mp hsorted).2
      have hhead := (List.pairwise_cons.mp hsorted).1
      have hcurend : cur.end_time ≤ e.timestamp := hfuture e (by simp)
      by_cases hgap : e.timestamp - cur.end_time < 5
      · -- extend the current period
        simp only [segLoop, if_pos hgap]
        exact ih (extendPeriod cur e) acc hsorted'
          (fun e' he' => by
            simpa [extendPeriod] using hhead e' he')
          (by simpa [extendPeriod] using le_trans hse hcurend)
          (by simp [extendPeriod, hdur])
          hgood hchain
          (fun p hp => by simpa [extendPeriod] using hbefore p hp)
      · -- close the current period, start a new one at `e`
        have hfar : cur.end_time + 5 ≤ e.timestamp := by linarith [not_lt.mp hgap]
        simp only [segLoop, if_neg hgap]
        by_cases hemit : cur.end_time - cur.start_time > 2
        · simp only [if_pos hemit]
          refine ih (newPeriod e) (acc ++ [{ cur with duration := cur.end_time - cur.start_time }])
            hsorted' (fun e' he' => by simpa [newPeriod] using hhead e' he')
            (le_refl _) (by simp [newPeriod]) ?_ ?_ ?_
          · intro p hp
            rcases List.mem_append.mp hp with hp' | hp'
            · exact hgood p hp'
            · simp at hp'
              subst hp'
              exact ⟨hse, rfl, hemit⟩
          · refine List.Chain'.append hchain (List.chain'_singleton _) ?_
            intro x hx y hy
            simp at hy
            subst hy
            have hx' : x ∈ acc := List.mem_of_mem_getLast? hx
            exact hbefore x hx'
          · intro p hp
            rcases List.mem_append.mp hp with hp' | hp'
            · have := hbefore p hp'
              simp only [newPeriod]
              linarith
            · simp at hp'
              subst hp'
              simp only [newPeriod]
              linarith
        · simp only [if_neg hemit]
          refine ih (newPeriod e) acc hsorted'
            (fun e' he' => by simpa [newPeriod] using hhead e' he')
            (le_refl _) (by simp [newPeriod]) hgood hchain ?_
          intro p hp
          have := hbefore p hp
          simp only [newPeriod]
          linarith

/-- Invariant of the whole segmenter on a timestamp-sorted event list. -/
theorem identifyActivityPeriods_invariant (events : List MotionEvent)
    (hsorted : events.Pairwise (fun a b => a.timestamp ≤ b.timestamp)) :
    (∀ p ∈ identifyActivityPeriods events, EmittedGood p) ∧
      List.Chain' PeriodSep (identifyActivityPeriods events) := by
  match events with
  | [] => simp [identifyActivityPeriods]
  | e :: es =>
      have hsorted' := (List.pairwise_cons.mp hsorted).2
      have hhead := (List.pairwise_cons.mp hsorted).1
      show (∀ p ∈ segLoop es (some (newPeriod e)) [], EmittedGood p) ∧ _
      exact segLoop_invariant es (newPeriod e) [] hsorted'
        (fun e' he' => by simpa [newPeriod] using hhead e' he')
        (le_refl _) (by simp [newPeriod]) (by simp) (by simp) (by simp)

/-! ## Claims C1 and C5 -/

/-- A final contiguous run of events at 0 s, 1 s, 2 s, 3 s: all gaps are
below the 5 s threshold and the run spans 3 s > 2 s. -/
def c1Events : List MotionEvent :=
  [ { frame := 0, timestamp := 0, motion_score := 20, severity := .moderate },
    { frame := 30, timestamp := 1, motion_score := 20, severity := .moderate },
    { frame := 60, timestamp := 2, motion_score := 20, severity := .moderate },
    { frame := 90, timestamp := 3, motion_score := 20, severity := .moderate } ]

unseal Rat.add Rat.sub Rat.mul Rat.inv Rat.ofScientific in
/-- C1: the claim says the segmenter closes the final accumulated period
after the loop and emits it when its span exceeds 2 s, so this 3 s run
should yield one emitted period.  The code instead tests the *stored*
`duration` field, which is still `0` for the final period (it is only
recomputed when a period is closed inside the loop), so the final period is
never emitted: on this input the output is empty. -/
theorem C1_final_period_never_emitted :
    identifyActivityPeriods c1Events = [] ∧
      c1Events.map MotionEvent.timestamp = [0, 1, 2, 3] := by
  constructor
  · decide
  · decide

/-- C5: on every timestamp-sorted motion-event sequence the emitted
activity periods are time-ordered, mutually non-overlapping (each ends
strictly before the next starts), and every emitted period has
duration ≥ 2 s (its stored `duration` equalling `end_time - start_time`). -/
theorem C5_segmenter_output_invariants (events : List MotionEvent)
    (hsorted : events.Pairwise (fun a b => a.timestamp ≤ b.timestamp)) :
    (∀ p ∈ identifyActivityPeriods events,
        p.start_time ≤ p.end_time ∧
        p.duration = p.end_time - p.start_time ∧ 2 ≤ p.duration) ∧
      List.Chain' (fun p q => p.end_time < q.start_time)
        (identifyActivityPeriods events) := by
  obtain ⟨hgood, hchain⟩ := identifyActivityPeriods_invariant events hsorted
  refine ⟨fun p hp => ?_, hchain⟩
  obtain ⟨h1, h2, h3⟩ := hgood p hp
  exact ⟨h1, h2, le_of_lt h3⟩

/-- Events for the C5 witness: a closed 3 s period (0,1,2,3) followed after
a 17 s gap by a final run that the loop never emits. -/
def c5Events : List MotionEvent :=
  [ { frame := 0, timestamp := 0, motion_score := 15, severity := .moderate },
    { frame := 30, timestamp := 1, motion_score := 15, severity := .moderate },
    { frame := 60, timestamp := 2, motion_score := 15, severity := .moderate },
    { frame := 90, timestamp := 3, motion_score := 15, severity := .moderate },
    { frame := 600, timestamp := 20, motion_score := 35, severity := .high },
    { frame := 630, timestamp := 21, motion_score := 35, severity := .high } ]

/-- The first period the segmenter emits on `c5Events`. -/
def c5Head : Period :=
  (identifyActivityPeriods c5Events).getD 0 ⟨0, 0, 0, []⟩

unseal Rat.add Rat.sub Rat.mul Rat.inv Rat.ofScientific in
/-- Witness for C5 at a concrete sorted event list. -/
theorem C5_witness :
    (c5Head.start_time ≤ c5Head.end_time ∧
        c5Head.duration = c5Head.end_time - c5Head.start_time ∧
        2 ≤ c5Head.duration) ∧
      List.Chain' (fun p q => p.end_time < q.start_time)
        (identifyActivityPeriods c5Events) := by
  obtain ⟨hall, hchain⟩ := C5_segmenter_output_invariants c5Events (by decide)
  exact ⟨hall c5Head (by decide), hchain⟩

/-! ## Claim C4 -/

/-- Five instruction steps. -/
def c4Steps : List InstructionStep :=
  [ { step_number := 1, title := "Mount base" },
    { step_number := 2, title := "Mount frame" },
    { step_number := 3, title := "Mount cover" },
    { step_number := 4, title := "Mount lid" },
    { step_number := 5, title := "Mount label" } ]

/-- Two activity periods. -/
def c4Periods : List Period :=
  [ { start_time := 0, end_time := 12, duration := 12, events := [] },
    { start_time := 30, end_time := 41, duration := 11, events := [] } ]

unseal Rat.add Rat.sub Rat.mul Rat.inv Rat.ofScientific in
/-- C4: `analyze_coverage` reports `estimated_coverage = min(A/S, 1.0)` when
`S > 0` and `0` when `S = 0`, and `missing_steps = max(0, S - A)`; for
`S = 5`, `A = 2` this gives 40.0 % coverage and 3 missing steps. -/
theorem C4_coverage_formula :
    (∀ (steps : List InstructionStep) (periods : List Period),
        (analyzeCoverage steps periods).estimated_coverage =
          (if steps.length = 0 then 0
           else min ((periods.length : ℚ) / (steps.length : ℚ)) 1) ∧
        (analyzeCoverage steps periods).missing_steps =
          max 0 ((steps.length : ℤ) - (periods.length : ℤ))) ∧
      (analyzeCoverage c4Steps c4Periods).estimated_coverage * 100 = 40 ∧
      (analyzeCoverage c4Steps c4Periods).missing_steps = 3 := by
  refine ⟨fun steps periods => ⟨?_, rfl⟩, by decide, by decide⟩
  simp only [analyzeCoverage, ne_eq, ← List.length_eq_zero]
  by_cases h : steps.length = 0
  · simp [h]
  · simp [h]

/-! ## Claim C8 -/

/-- C8 counterexample: at zero fps, `VideoProcessor.get_video_info` does not
default the duration to 0 — it divides unguarded and raises
`ZeroDivisionError`, so the claim fails at this site. -/
theorem C8_counterexample :
    getVideoInfo 640 480 0 100 =
        Except.error "ZeroDivisionError: float division by zero" ∧
      getVideoInfo 640 480 0 100 ≠
        Except.ok { width := 640, height := 480, fps := 0,
                    frame_count := 100, duration := 0 } := by
  refine ⟨rfl, fun h => ?_⟩
  simp [getVideoInfo] at h

/-- C8 (amended): `VideoRecordingAnalyzer.__init__` guards the division and
defaults `duration` to 0 on zero fps, but `VideoProcessor.get_video_info`
divides by fps unguarded and raises `ZeroDivisionError` on zero fps. -/
theorem C8_zero_fps_behaviour (frame_count : ℕ) (w h fc : ℤ) :
    recordingDuration frame_count 0 = 0 ∧
      getVideoInfo w h 0 fc =
        Except.error "ZeroDivisionError: float division by zero" := by
  constructor
  · simp [recordingDuration]
  · simp [getVideoInfo]

/-! ## Claim C2 -/

/-- A motion region in the bottom band (center y = 830 of a 1000-px frame),
with no skin overlap, contour area 3000 (≤ 5000 but inside the DUT band). -/
def c2Obj : MovingObj :=
  { bbox := (100, 800, 50, 60), area := 3000, center := (125, 830),
    histogram := [] }

unseal Rat.add Rat.sub Rat.mul Rat.inv Rat.ofScientific in
/-- C2 counterexample: this region fails the hand test, lies in the bottom
band, has area ≤ 5000 and area within (1000, 10000), yet the classifier
leaves it Unknown rather than DUT — the area test of the Conveyor rule is
nested *inside* the bottom-band `elif`, so its failure does not fall
through to the DUT rule. -/
theorem C2_counterexample :
    ¬ overlapWithRegions c2Obj.bbox [] > defaultConfig.hand_detection_threshold ∧
      ((c2Obj.center.2 : ℚ) > (1000 : ℚ) * defaultConfig.conveyor_y_position_frac) ∧
      ¬ c2Obj.area > 5000 ∧ 1000 < c2Obj.area ∧ c2Obj.area < 10000 ∧
      (classifyObj defaultConfig initialState [] 1000 1000 c2Obj).otype ≠
        ObjectType.DUT ∧
      (classifyObj defaultConfig initialState [] 1000 1000 c2Obj).otype =
        ObjectType.UNKNOWN := by
  decide

/-- C2 (amended): a motion region that fails the hand-overlap test, whose
vertical center lies in the bottom band, and whose area does not exceed the
conveyor lower bound (5000) is left Unknown with confidence 0.5 — the
failed Conveyor conjunction does not fall through to the DUT rule,
whatever the region's area. -/
theorem C2_bottom_band_small_area_stays_unknown (cfg : Config)
    (st : TrackerState) (hands : List (ℤ × ℤ × ℤ × ℤ)) (height width : ℤ)
    (obj : MovingObj)
    (h1 : ¬ overlapWithRegions obj.bbox hands > cfg.hand_detection_threshold)
    (h2 : (obj.center.2 : ℚ) > (height : ℚ) * cfg.conveyor_y_position_frac)
    (h3 : ¬ obj.area > 5000) :
    (classifyObj cfg st hands height width obj).otype = ObjectType.UNKNOWN ∧
      (classifyObj cfg st hands height width obj).confidence = 1 / 2 := by
  constructor <;> simp [classifyObj, h1, h2, h3]

unseal Rat.add Rat.sub Rat.mul Rat.inv Rat.ofScientific in
/-- Witness for the amended C2 at the concrete region `c2Obj`. -/
theorem C2_witness :
    (classifyObj defaultConfig initialState [] 1000 1000 c2Obj).otype =
        ObjectType.UNKNOWN ∧
      (classifyObj defaultConfig initialState [] 1000 1000 c2Obj).confidence =
        1 / 2 :=
  C2_bottom_band_small_area_stays_unknown defaultConfig initialState []
    1000 1000 c2Obj (by decide) (by decide) (by decide)

/-! ## Claim C3 -/

/-- A 50×50 moving object with contour area 2000 centred at `(cx, cy)`. -/
def c3Obj (cx cy : ℤ) : MovingObj :=
  { bbox := (cx - 25, cy - 25, 50, 50), area := 2000, center := (cx, cy),
    histogram := [] }

/-- Frame 1: one DUT-sized object at (50, 50). -/
def c3Frame1 : FrameDetections :=
  { moving := [c3Obj 50 50], hand_regions := [], height := 1000, width := 1000 }

/-- Frame 2: two DUT-sized objects at (50, 50) and (60, 50), both within
the 100-px matching radius of the single tracked entity. -/
def c3Frame2 : FrameDetections :=
  { moving := [c3Obj 50 50, c3Obj 60 50], hand_regions := [],
    height := 1000, width := 1000 }

/-- Tracker state after frame 1: exactly one entity, id 0, role DUT. -/
def c3St1 : TrackerState := processFrame defaultConfig initialState c3Frame1

unseal Rat.add Rat.sub Rat.mul Rat.inv Rat.ofScientific in
/-- C3 counterexample: in frame 2 both classified regions select entity 0
as their match (the per-object matching loop never excludes entities that
were already matched earlier in the same call), so the match trace of the
single tracking update contains the same entity id twice. -/
theorem C3_counterexample :
    (processFrameLog defaultConfig c3St1 c3Frame2).2.1 = [some 0, some 0] ∧
      ¬ ((processFrameLog defaultConfig c3St1 c3Frame2).2.1.filterMap id).Nodup ∧
      c3Frame2.moving.length = 2 := by
  decide

/-- Shape of one step of the `_update_tracking` loop: it appends exactly
one entry to the match trace — `some m` (updating entity `m`) or `none`
together with one freshly created id. -/
theorem trackStep_trace (cfg : Config) (s : TrackLoopState)
    (obj : ClassifiedObj) :
    (∃ m : Nat, (trackStep cfg s obj).matchTrace = s.matchTrace ++ [some m] ∧
        (trackStep cfg s obj).createdIds = s.createdIds) ∨
      ((trackStep cfg s obj).matchTrace = s.matchTrace ++ [none] ∧
        (trackStep cfg s obj).createdIds =
          s.createdIds ++ [s.st.next_object_id]) := by
  unfold trackStep
  cases hfm : (findMatch cfg s.st.tracked_objects s.st.kalman_filters
      obj.center obj.otype).1 with
  | none => right; simp [hfm]
  | some m => left; exact ⟨m, by simp [hfm], by simp [hfm]⟩

/-- Over the whole per-frame loop, the ghost logs grow by exactly one match
entry per classified object and one created id per `none` entry. -/
theorem trackFold_logs (cfg : Config) (objs : List ClassifiedObj) :
    ∀ s : TrackLoopState,
      ∃ tr cr,
        (objs.foldl (trackStep cfg) s).matchTrace = s.matchTrace ++ tr ∧
        (objs.foldl (trackStep cfg) s).createdIds = s.createdIds ++ cr ∧
        tr.length = objs.length ∧
        cr.length = (tr.filter (fun m => m.isNone)).length := by
  induction objs with
  | nil => exact fun s => ⟨[], [], by simp, by simp, rfl, rfl⟩
  | cons obj objs ih =>
      intro s
      obtain ⟨tr, cr, htr, hcr, hlen, hcnt⟩ := ih (trackStep cfg s obj)
      rcases trackStep_trace cfg s obj with ⟨m, hm, hc⟩ | ⟨hm, hc⟩
      · exact ⟨some m :: tr, cr,
          by simp [List.foldl_cons, htr, hm],
          by simp [List.foldl_cons, hcr, hc],
          by simp [hlen],
          by simp [hcnt, List.filter_cons]⟩
      · exact ⟨none :: tr, s.st.next_object_id :: cr,
          by simp [List.foldl_cons, htr, hm],
          by simp [List.foldl_cons, hcr, hc],
          by simp [hlen],
          by simp [hcnt, List.filter_cons]⟩

/-- C3 (amended): each classified region selects at most one existing
entity per tracking update — the trace records exactly one optional match
per region, and exactly one fresh entity is created per unmatched region —
but nothing prevents several regions of the same frame from selecting the
same entity (see the counterexample). -/
theorem C3_one_match_per_region (cfg : Config)
    (classified : List ClassifiedObj) (st : TrackerState) :
    ((updateTrackingLog cfg classified st).2.1).length = classified.length ∧
      ((updateTrackingLog cfg classified st).2.2).length =
        (((updateTrackingLog cfg classified st).2.1).filter
          (fun m => m.isNone)).length := by
  obtain ⟨tr, cr, htr, hcr, hlen, hcnt⟩ :=
    trackFold_logs cfg classified
      { st := st, matched_objects := [], matchTrace := [], createdIds := [] }
  constructor
  · simp [updateTrackingLog, htr, hlen]
  · simp [updateTrackingLog, htr, hcr, hcnt]

/-! ## Claim C6 -/

/-- Registry well-formedness: every registered id is below the id counter.
This holds in every reachable state (ids are handed out from the counter)
and rules out a fresh id colliding with a live entity. -/
def KeysBound (st : TrackerState) : Prop :=
  ∀ p ∈ st.tracked_objects, p.1 < st.next_object_id

instance (st : TrackerState) : Decidable (KeysBound st) :=
  List.decidableBAll _ st.tracked_objects

/-- `update_position` does not touch the entity's role. -/
theorem updatePosition_object_type (t : TrackedObject)
    (b : ℤ × ℤ × ℤ × ℤ) (n : Nat) :
    (updatePosition t b n).object_type = t.object_type := rfl

/-- One loop step preserves registry well-formedness and the role of every
live entity whose role is already decided (non-Unknown). -/
theorem trackStep_role (cfg : Config) (s : TrackLoopState)
    (obj : ClassifiedObj) (id : Nat) (t : TrackedObject)
    (hb : KeysBound s.st)
    (hl : Dict.lookup s.st.tracked_objects id = some t)
    (hr : t.object_type ≠ ObjectType.UNKNOWN) :
    KeysBound (trackStep cfg s obj).st ∧
      ∃ t2, Dict.lookup (trackStep cfg s obj).st.tracked_objects id = some t2 ∧
        t2.object_type = t.object_type := by
  have hidlt : id < s.st.next_object_id := hb _ (Dict.lookup_mem hl)
  unfold trackStep
  cases hfm : (findMatch cfg s.st.tracked_objects s.st.kalman_filters
      obj.center obj.otype).1 with
  | none =>
      simp only [hfm]
      constructor
      · intro p hp
        rcases Dict.mem_insert hp with hp' | hp'
        · subst hp'
          simp
        · exact Nat.lt_succ_of_lt (hb p hp')
      · refine ⟨t, ?_, rfl⟩
        have hne : id ≠ s.st.next_object_id := Nat.ne_of_lt hidlt
        simpa [Dict.lookup_insert_of_ne _ _ _ _ hne] using hl
  | some m =>
      simp only [hfm]
      cases hlk : Dict.lookup s.st.tracked_objects m with
      | none =>
          simp only [hlk]
          exact ⟨hb, t, hl, rfl⟩
      | some tr =>
          simp only [hlk]
          have hmlt : m < s.st.next_object_id := hb _ (Dict.lookup_mem hlk)
          constructor
          · intro p hp
            rcases Dict.mem_insert hp with hp' | hp'
            · subst hp'
              exact hmlt
            · exact hb p hp'
          · by_cases hm : id = m
            · subst hm
              have htr : tr = t := by
                rw [hl] at hlk
                exact (Option.some.inj hlk).symm
              subst htr
              refine ⟨_, Dict.lookup_insert_self _ _ _, ?_⟩
              simp [updatePosition_object_type, hr]
            · exact ⟨t, by
                simpa [Dict.lookup_insert_of_ne _ _ _ _ hm] using hl, rfl⟩

/-- The whole per-frame matching loop preserves well-formedness and
decided roles. -/
theorem trackFold_role (cfg : Config) (objs : List ClassifiedObj) :
    ∀ (s : TrackLoopState) (id : Nat) (t : TrackedObject),
      KeysBound s.st →
      Dict.lookup s.st.tracked_objects id = some t →
      t.object_type ≠ ObjectType.UNKNOWN →
      KeysBound (objs.foldl (trackStep cfg) s).st ∧
        ∃ t2, Dict.lookup (objs.foldl (trackStep cfg) s).st.tracked_objects id
            = some t2 ∧ t2.object_type = t.object_type := by
  induction objs with
  | nil => exact fun s id t hb hl _ => ⟨hb, t, hl, rfl⟩
  | cons obj objs ih =>
      intro s id t hb hl hr
      obtain ⟨hb1, t1, hl1, he1⟩ := trackStep_role cfg s obj id t hb hl hr
      obtain ⟨hb2, t2, hl2, he2⟩ :=
        ih (trackStep cfg s obj) id t1 hb1 hl1 (he1 ▸ hr)
      exact ⟨hb2, t2, by simpa using hl2, he2.trans he1⟩

/-- Surviving an eviction fold means the binding was there before it,
unchanged. -/
theorem evictFold_lookup (ids : List Nat) :
    ∀ (st : TrackerState) (id : Nat) (t' : TrackedObject),
      Dict.lookup (ids.foldl evict st).tracked_objects id = some t' →
      Dict.lookup st.tracked_objects id = some t' := by
  induction ids with
  | nil => exact fun st id t' h => h
  | cons i ids ih =>
      intro st id t' h
      have h1 := ih (evict st i) id t' (by simpa using h)
      have h2 : Dict.lookup (Dict.erase st.tracked_objects i) id = some t' := h1
      rw [Dict.lookup_erase] at h2
      by_cases hid : id = i
      · simp [hid] at h2
      · simpa [hid] using h2

/-- An eviction fold does not change the id counter or the frame count. -/
theorem evictFold_counters (ids : List Nat) :
    ∀ st : TrackerState,
      (ids.foldl evict st).next_object_id = st.next_object_id ∧
        (ids.foldl evict st).frame_count = st.frame_count := by
  induction ids with
  | nil => exact fun st => ⟨rfl, rfl⟩
  | cons i ids ih =>
      intro st
      simpa [evict] using ih (evict st i)

/-- Surviving `removeStale` means the binding was there before it. -/
theorem removeStale_lookup (cfg : Config) (st : TrackerState)
    (ms : List Nat) (id : Nat) (t' : TrackedObject)
    (h : Dict.lookup (removeStale cfg st ms).tracked_objects id = some t') :
    Dict.lookup st.tracked_objects id = some t' :=
  evictFold_lookup _ st id t' h

/-- C6: once a tracked entity's role is set to a value other than Unknown,
no later `process_frame` call changes it: a matched entity's role is
overwritten with the candidate's role only when the current role is
Unknown, matching requires role compatibility, and eviction only deletes.
(The well-formedness hypothesis `KeysBound` holds in every reachable
state.) -/
theorem C6_role_never_reverts (cfg : Config) (st : TrackerState)
    (fd : FrameDetections) (id : Nat) (t t' : TrackedObject)
    (hb : KeysBound st)
    (hl : Dict.lookup st.tracked_objects id = some t)
    (hr : t.object_type ≠ ObjectType.UNKNOWN)
    (hl' : Dict.lookup (processFrame cfg st fd).tracked_objects id = some t') :
    t'.object_type = t.object_type := by
  have hstep : processFrame cfg st fd =
      removeStale cfg
        ((classifyObjects cfg { st with frame_count := st.frame_count + 1 }
            fd.moving fd.hand_regions fd.height fd.width).foldl (trackStep cfg)
          { st := { st with frame_count := st.frame_count + 1 },
            matched_objects := [], matchTrace := [], createdIds := [] }).st
        ((classifyObjects cfg { st with frame_count := st.frame_count + 1 }
            fd.moving fd.hand_regions fd.height fd.width).foldl (trackStep cfg)
          { st := { st with frame_count := st.frame_count + 1 },
            matched_objects := [], matchTrace := [], createdIds := [] }).matched_objects := rfl
  rw [hstep] at hl'
  have hl2 := removeStale_lookup _ _ _ _ _ hl'
  obtain ⟨_, t2, hl3, he⟩ := trackFold_role cfg _
    { st := { st with frame_count := st.frame_count + 1 },
      matched_objects := [], matchTrace := [], createdIds := [] } id t
    (fun p hp => hb p hp) hl hr
  rw [hl3] at hl2
  cases hl2
  exact he

/-- Fallback record for total lookups in the witnesses. -/
def dummyTracked : TrackedObject :=
  { id := 0, object_type := ObjectType.UNKNOWN, bbox := (0, 0, 0, 0),
    center := (0, 0), area := 0, color_histogram := [], motion_history := [],
    confidence := 0, first_seen_frame := 0, last_seen_frame := 0,
    velocity := (0, 0) }

/-- Entity 0 after frame 1 of the concrete run. -/
def c6T : TrackedObject :=
  (Dict.lookup c3St1.tracked_objects 0).getD dummyTracked

/-- Entity 0 after frame 2 of the concrete run. -/
def c6T2 : TrackedObject :=
  (Dict.lookup (processFrame defaultConfig c3St1 c3Frame2).tracked_objects 0).getD
    dummyTracked

unseal Rat.add Rat.sub Rat.mul Rat.inv Rat.ofScientific in
/-- Witness for C6 on the concrete two-frame run: entity 0 is classified
DUT after frame 1 and keeps that role through frame 2. -/
theorem C6_witness : c6T2.object_type = c6T.object_type :=
  C6_role_never_reverts defaultConfig c3St1 c3Frame2 0 c6T c6T2
    (by decide) (by decide) (by decide) (by decide)

/-! ## Claim C7 -/

/-- One loop step either matches (counter and created log unchanged) or
creates one entity with the current counter value, bumping the counter. -/
theorem trackStep_next (cfg : Config) (s : TrackLoopState)
    (obj : ClassifiedObj) :
    ((trackStep cfg s obj).createdIds = s.createdIds ∧
        (trackStep cfg s obj).st.next_object_id = s.st.next_object_id) ∨
      ((trackStep cfg s obj).createdIds =
          s.createdIds ++ [s.st.next_object_id] ∧
        (trackStep cfg s obj).st.next_object_id = s.st.next_object_id + 1) := by
  unfold trackStep
  cases hfm : (findMatch cfg s.st.tracked_objects s.st.kalman_filters
      obj.center obj.otype).1 with
  | none => right; simp [hfm]
  | some m =>
      left
      cases hlk : Dict.lookup s.st.tracked_objects m with
      | none => simp [hfm, hlk]
      | some tr => simp [hfm, hlk]

/-- Over one frame's matching loop the created ids extend the log by a
strictly increasing block drawn from the counter range. -/
theorem trackFold_created (cfg : Config) (objs : List ClassifiedObj) :
    ∀ s : TrackLoopState,
      s.st.next_object_id ≤ (objs.foldl (trackStep cfg) s).st.next_object_id ∧
        ∃ delta,
          (objs.foldl (trackStep cfg) s).createdIds = s.createdIds ++ delta ∧
          (∀ i ∈ delta, s.st.next_object_id ≤ i ∧
            i < (objs.foldl (trackStep cfg) s).st.next_object_id) ∧
          List.Sorted (· < ·) delta := by
  induction objs with
  | nil => exact fun s => ⟨le_refl _, [], by simp, by simp, List.sorted_nil⟩
  | cons obj objs ih =>
      intro s
      obtain ⟨hle, delta, hcr, hbnd, hsort⟩ := ih (trackStep cfg s obj)
      rcases trackStep_next cfg s obj with ⟨hc, hn⟩ | ⟨hc, hn⟩
      · refine ⟨by rw [List.foldl_cons]; exact hn ▸ hle, delta, ?_, ?_, hsort⟩
        · simpa [List.foldl_cons, hc] using hcr
        · intro i hi
          obtain ⟨h1, h2⟩ := hbnd i hi
          exact ⟨hn ▸ h1, h2⟩
      · have hle' : s.st.next_object_id <
            (objs.foldl (trackStep cfg) (trackStep cfg s obj)).st.next_object_id := by
          calc s.st.next_object_id < s.st.next_object_id + 1 := Nat.lt_succ_self _
            _ = (trackStep cfg s obj).st.next_object_id := hn.symm
            _ ≤ _ := hle
        refine ⟨by rw [List.foldl_cons]; exact le_of_lt hle',
          s.st.next_object_id :: delta, ?_, ?_, ?_⟩
        · rw [List.foldl_cons, hcr, hc]
          simp
        · intro i hi
          rcases List.mem_cons.mp hi with hi' | hi'
          · subst hi'
            exact ⟨le_refl _, by rw [List.foldl_cons]; exact hle'⟩
          · obtain ⟨h1, h2⟩ := hbnd i hi'
            refine ⟨?_, by rw [List.foldl_cons]; exact h2⟩
            calc s.st.next_object_id ≤ s.st.next_object_id + 1 := Nat.le_succ _
              _ = (trackStep cfg s obj).st.next_object_id := hn.symm
              _ ≤ i := h1
        · refine List.sorted_cons.mpr ⟨?_, hsort⟩
          intro b hb
          obtain ⟨h1, _⟩ := hbnd b hb
          calc s.st.next_object_id < s.st.next_object_id + 1 := Nat.lt_succ_self _
            _ = (trackStep cfg s obj).st.next_object_id := hn.symm
            _ ≤ b := h1

/-- `removeStale` does not change the id counter or the frame count. -/
theorem removeStale_counters (cfg : Config) (st : TrackerState)
    (ms : List Nat) :
    (removeStale cfg st ms).next_object_id = st.next_object_id ∧
      (removeStale cfg st ms).frame_count = st.frame_count :=
  evictFold_counters _ st

/-- `updateTrackingLog` unfolded into its two phases. -/
theorem updateTrackingLog_eq (cfg : Config) (classified : List ClassifiedObj)
    (st : TrackerState) :
    updateTrackingLog cfg classified st =
      (removeStale cfg
        (classified.foldl (trackStep cfg)
          { st := st, matched_objects := [], matchTrace := [],
            createdIds := [] }).st
        (classified.foldl (trackStep cfg)
          { st := st, matched_objects := [], matchTrace := [],
            createdIds := [] }).matched_objects,
       (classified.foldl (trackStep cfg)
          { st := st, matched_objects := [], matchTrace := [],
            createdIds := [] }).matchTrace,
       (classified.foldl (trackStep cfg)
          { st := st, matched_objects := [], matchTrace := [],
            createdIds := [] }).createdIds) := rfl

/-- Per `process_frame` call: the counter is monotone and the created-id
block is strictly increasing within the counter range of the call. -/
theorem processFrameLog_created (cfg : Config) (st : TrackerState)
    (fd : FrameDetections) :
    st.next_object_id ≤ (processFrameLog cfg st fd).1.next_object_id ∧
      List.Sorted (· < ·) (processFrameLog cfg st fd).2.2 ∧
      ∀ i ∈ (processFrameLog cfg st fd).2.2,
        st.next_object_id ≤ i ∧
          i < (processFrameLog cfg st fd).1.next_object_id := by
  have hpfl : processFrameLog cfg st fd =
      updateTrackingLog cfg
        (classifyObjects cfg { st with frame_count := st.frame_count + 1 }
          fd.moving fd.hand_regions fd.height fd.width)
        { st with frame_count := st.frame_count + 1 } := rfl
  rw [hpfl, updateTrackingLog_eq]
  obtain ⟨hle, delta, hcr, hbnd, hsort⟩ := trackFold_created cfg
    (classifyObjects cfg { st with frame_count := st.frame_count + 1 }
      fd.moving fd.hand_regions fd.height fd.width)
    { st := { st with frame_count := st.frame_count + 1 },
      matched_objects := [], matchTrace := [], createdIds := [] }
  obtain ⟨hn, -⟩ := removeStale_counters cfg
    ((classifyObjects cfg { st with frame_count := st.frame_count + 1 }
        fd.moving fd.hand_regions fd.height fd.width).foldl (trackStep cfg)
      { st := { st with frame_count := st.frame_count + 1 },
        matched_objects := [], matchTrace := [], createdIds := [] }).st
    ((classifyObjects cfg { st with frame_count := st.frame_count + 1 }
        fd.moving fd.hand_regions fd.height fd.width).foldl (trackStep cfg)
      { st := { st with frame_count := st.frame_count + 1 },
        matched_objects := [], matchTrace := [], createdIds := [] }).matched_objects
  dsimp only
  refine ⟨?_, ?_, ?_⟩
  · rw [hn]
    exact hle
  · simpa [hcr] using hsort
  · intro i hi
    have hi' : i ∈ delta := by simpa [hcr] using hi
    obtain ⟨h1, h2⟩ := hbnd i hi'
    exact ⟨h1, by rw [hn]; exact h2⟩

/-- `sessionCreated` from any state is strictly increasing and bounded
below by the state's counter. -/
theorem sessionCreated_sorted (cfg : Config) (fds : List FrameDetections) :
    ∀ st : TrackerState,
      List.Sorted (· < ·) (sessionCreated cfg st fds) ∧
        ∀ i ∈ sessionCreated cfg st fds, st.next_object_id ≤ i := by
  induction fds with
  | nil => exact fun st => ⟨List.sorted_nil, by simp [sessionCreated]⟩
  | cons fd fds ih =>
      intro st
      obtain ⟨hle, hsort1, hbnd1⟩ := processFrameLog_created cfg st fd
      obtain ⟨hsort2, hbnd2⟩ := ih (processFrameLog cfg st fd).1
      have hsplit : sessionCreated cfg st (fd :: fds) =
          (processFrameLog cfg st fd).2.2 ++
            sessionCreated cfg (processFrameLog cfg st fd).1 fds := rfl
      constructor
      · rw [hsplit]
        rw [List.Sorted, List.pairwise_append]
        refine ⟨hsort1, hsort2, ?_⟩
        intro x hx y hy
        obtain ⟨_, hx2⟩ := hbnd1 x hx
        exact lt_of_lt_of_le hx2 (hbnd2 y hy)
      · intro i hi
        rw [hsplit] at hi
        rcases List.mem_append.mp hi with hi' | hi'
        · exact (hbnd1 i hi').1
        · exact le_trans hle (hbnd2 i hi')

/-- C7: within one tracker instance's lifetime the ids assigned to newly
created entities form a strictly increasing sequence; in particular no id
is ever assigned twice, even after the first entity with that id has been
evicted. -/
theorem C7_ids_strictly_increasing (cfg : Config)
    (fds : List FrameDetections) :
    List.Sorted (· < ·) (sessionCreated cfg initialState fds) ∧
      (sessionCreated cfg initialState fds).Nodup :=
  ⟨(sessionCreated_sorted cfg fds initialState).1,
    (sessionCreated_sorted cfg fds initialState).1.nodup⟩

/-! ## Claim C10 -/

/-- The ids owning a Kalman filter are exactly the ids in the registry. -/
def KeysMatch (st : TrackerState) : Prop :=
  ∀ id : Nat,
    Dict.hasKey st.kalman_filters id = Dict.hasKey st.tracked_objects id

/-- Predicting replaces a stored filter in place: the key set of the
filter map is unchanged. -/
theorem predictPosition_keys (filters : Dict KalmanFilter) (obj_id k : Nat) :
    Dict.hasKey (predictPosition filters obj_id).2 k =
      Dict.hasKey filters k := by
  cases hl : Dict.lookup filters obj_id with
  | none => simp [predictPosition, hl]
  | some kf =>
      by_cases hk : k = obj_id
      · subst hk
        simp [predictPosition, hl, Dict.hasKey_insert, Dict.hasKey,
          Dict.lookup_insert_self]
      · simp [predictPosition, hl, Dict.hasKey_insert, hk]

/-- One matching-loop step does not change the filter key set. -/
theorem findMatchStep_keys (cfg : Config) (center : ℤ × ℤ)
    (otype : ObjectType) (acc : Option (Nat × ℚ) × Dict KalmanFilter)
    (p : Nat × TrackedObject) (k : Nat) :
    Dict.hasKey (findMatchStep cfg center otype acc p).2 k =
      Dict.hasKey acc.2 k := by
  unfold findMatchStep
  by_cases hrole : p.2.object_type = otype ∨
      p.2.object_type = ObjectType.UNKNOWN
  · simp only [hrole, if_true]
    exact predictPosition_keys acc.2 p.1 k
  · simp [hrole]

/-- The whole matching scan does not change the filter key set. -/
theorem findMatch_keys (cfg : Config) (tracked : Dict TrackedObject)
    (filters : Dict KalmanFilter) (center : ℤ × ℤ) (otype : ObjectType)
    (k : Nat) :
    Dict.hasKey (findMatch cfg tracked filters center otype).2 k =
      Dict.hasKey filters k := by
  suffices h : ∀ acc : Option (Nat × ℚ) × Dict KalmanFilter,
      Dict.hasKey
          (tracked.foldl (findMatchStep cfg center otype) acc).2 k =
        Dict.hasKey acc.2 k by
    exact h (none, filters)
  induction tracked with
  | nil => exact fun acc => rfl
  | cons p rest ih =>
      intro acc
      rw [List.foldl_cons, ih]
      exact findMatchStep_keys cfg center otype acc p k

/-- Correcting a filter replaces it in place: key set unchanged. -/
theorem updateKalman_keys (filters : Dict KalmanFilter) (obj_id : Nat)
    (center : ℤ × ℤ) (k : Nat) :
    Dict.hasKey (updateKalman filters obj_id center) k =
      Dict.hasKey filters k := by
  cases hl : Dict.lookup filters obj_id with
  | none => simp [updateKalman, hl]
  | some kf =>
      by_cases hk : k = obj_id
      · subst hk
        simp [updateKalman, hl, Dict.hasKey_insert, Dict.hasKey,
          Dict.lookup_insert_self]
      · simp [updateKalman, hl, Dict.hasKey_insert, hk]

/-- One loop step of `_update_tracking` preserves the key agreement:
a match corrects an existing filter, a creation installs the new entity's
filter in the same step. -/
theorem trackStep_keysMatch (cfg : Config) (s : TrackLoopState)
    (obj : ClassifiedObj) (h : KeysMatch s.st) :
    KeysMatch (trackStep cfg s obj).st := by
  unfold trackStep
  cases hfm : (findMatch cfg s.st.tracked_objects s.st.kalman_filters
      obj.center obj.otype).1 with
  | none =>
      simp only [hfm]
      intro k
      rw [Dict.hasKey_insert, Dict.hasKey_insert, findMatch_keys, h k]
  | some m =>
      simp only [hfm]
      cases hlk : Dict.lookup s.st.tracked_objects m with
      | none =>
          simp only [hlk]
          intro k
          rw [updateKalman_keys, findMatch_keys, h k]
      | some tr =>
          simp only [hlk]
          intro k
          rw [updateKalman_keys, findMatch_keys, h k, Dict.hasKey_insert]
          by_cases hk : k = m
          · subst hk
            simp [Dict.hasKey, hlk]
          · simp [hk]

/-- Eviction preserves the key agreement: deleting an entity deletes its
filter in the same transaction. -/
theorem evict_keysMatch (st : TrackerState) (i : Nat) (h : KeysMatch st) :
    KeysMatch (evict st i) := by
  intro k
  show Dict.hasKey (if Dict.hasKey st.kalman_filters i then
      Dict.erase st.kalman_filters i else st.kalman_filters) k =
    Dict.hasKey (Dict.erase st.tracked_objects i) k
  by_cases hki : Dict.hasKey st.kalman_filters i = true
  · rw [if_pos hki, Dict.hasKey_erase, Dict.hasKey_erase, h k]
  · rw [if_neg hki, Dict.hasKey_erase]
    have hki2 : Dict.hasKey st.kalman_filters i = false := by simpa using hki
    by_cases hk : k = i
    · subst hk
      simp [hki2]
    · simp [hk, h k]

/-- Eviction folds preserve the key agreement. -/
theorem evictFold_keysMatch (ids : List Nat) :
    ∀ st : TrackerState, KeysMatch st → KeysMatch (ids.foldl evict st) := by
  induction ids with
  | nil => exact fun st h => h
  | cons i ids ih => exact fun st h => ih (evict st i) (evict_keysMatch st i h)

/-- The whole per-frame update preserves the key agreement. -/
theorem processFrame_keysMatch (cfg : Config) (st : TrackerState)
    (fd : FrameDetections) (h : KeysMatch st) :
    KeysMatch (processFrame cfg st fd) := by
  have hpf : processFrame cfg st fd =
      (updateTrackingLog cfg
        (classifyObjects cfg { st with frame_count := st.frame_count + 1 }
          fd.moving fd.hand_regions fd.height fd.width)
        { st with frame_count := st.frame_count + 1 }).1 := rfl
  rw [hpf, updateTrackingLog_eq]
  dsimp only
  apply evictFold_keysMatch
  suffices hfold : ∀ (objs : List ClassifiedObj) (s : TrackLoopState),
      KeysMatch s.st → KeysMatch ((objs.foldl (trackStep cfg) s)).st by
    exact hfold _ _ (fun k => h k)
  intro objs
  induction objs with
  | nil => exact fun s hs => hs
  | cons obj objs ih =>
      exact fun s hs => ih (trackStep cfg s obj) (trackStep_keysMatch cfg s obj hs)

/-- C10: after every tracking update in a session started from a fresh
tracker, the set of entity ids owning a Kalman filter equals the set of
ids in the tracked-entity registry — filters are installed on creation and
deleted on eviction in the same step, so no orphan filters accumulate. -/
theorem C10_filters_track_registry (cfg : Config)
    (fds : List FrameDetections) :
    KeysMatch (runFrames cfg initialState fds) := by
  suffices h : ∀ st : TrackerState, KeysMatch st →
      KeysMatch (runFrames cfg st fds) by
    exact h initialState (fun _ => rfl)
  induction fds with
  | nil => exact fun st hs => hs
  | cons fd fds ih =>
      exact fun st hs => ih (processFrame cfg st fd)
        (processFrame_keysMatch cfg st fd hs)

/-! ## Claim C9 -/

/-- C9: the pipeline is deterministic — two runs over the same detected
frame sequence with the same configuration, each from a fresh initial
state, produce the same final tracker state, the same entity-id assignment
order, and the same activity-period list.  (The embedded pipeline is a
pure function of the configuration and the frame stream; the source core
reads no random or time-dependent input.) -/
theorem C9_pipeline_deterministic (cfg : Config)
    (fds : List FrameDetections) (events : List MotionEvent)
    (s1 s2 : TrackerState) (h1 : s1 = initialState) (h2 : s2 = initialState) :
    runFrames cfg s1 fds = runFrames cfg s2 fds ∧
      sessionCreated cfg s1 fds = sessionCreated cfg s2 fds ∧
      identifyActivityPeriods events = identifyActivityPeriods events := by
  subst h1
  subst h2
  exact ⟨rfl, rfl, rfl⟩

/-- Witness for C9 on a concrete frame stream and event list. -/
theorem C9_witness :
    runFrames defaultConfig initialState [c3Frame1, c3Frame2] =
        runFrames defaultConfig initialState [c3Frame1, c3Frame2] ∧
      sessionCreated defaultConfig initialState [c3Frame1, c3Frame2] =
        sessionCreated defaultConfig initialState [c3Frame1, c3Frame2] ∧
      identifyActivityPeriods c1Events = identifyActivityPeriods c1Events :=
  C9_pipeline_deterministic defaultConfig [c3Frame1, c3Frame2] c1Events
    initialState initialState rfl rfl

end MotionAnalysis
